import Mathlib

/-!
Shallow embedding of the PerformanceSystem report-to-email pipeline, translated from
`src/PerformanceSystem/enhanced_generator.py` (with constants from `config.py`).

The embedding covers the five core components the claims are about:
metric extraction (`parse_pdf_report`, including the exact backtracking semantics of the
five `re.search` patterns), conviction ranking (`get_top_convictions`, via the
`pandas.DataFrame.nlargest` semantics: stable descending sort by the return column,
keep the first `n`), template substitution (`generate_email`, via a model of Python
`str.format` restricted to named fields without format specs, which is all the system
uses), optional AI enhancement (`enhance_with_ai`, with the external chat-completion
request abstracted as a fallible call), and batch orchestration (`process_all_reports`).

File access (reading PDFs, the Excel table, the template file, writing output files) is
plumbing performed by collaborators; following the specification, sources are modelled as
named text blobs that are either readable or unreadable, the conviction table and template
arrive as values, and outputs are returned as a list keyed by recipient identity.
-/

/-! ### Regular-expression engine

Model of Python `re.search` for the five patterns in `parse_pdf_report`
(lines 121-149 of `enhanced_generator.py`).  All five patterns fall in a small
fragment: case-insensitive literals, an optional literal-plus-whitespace prefix
`(?:Word\s+)?`, greedy character-class stars such as `[^\d]*`, greedy `-?`, `\d+`,
`\.?`, `\d*`, one capture group, and a literal `%`.  The engine below implements
exact leftmost search with full greedy backtracking for that fragment: every
quantifier first consumes as much as possible and gives back characters on failure,
and `re.search` tries start positions left to right. -/

/-- Token of the regex fragment used by the five extraction patterns. -/
inductive RTok where
  | lits (cs : List Char)
  | ch (c : Char)
  | optc (c : Char)
  | star (f : Char → Bool)
  | plus (f : Char → Bool)
  | optLitSp (cs : List Char)
  | gopen
  | gclose

/-- Capture-group state: before the group, recording it (reversed), or finished. -/
inductive CapSt where
  | pre
  | during (acc : List Char)
  | done (res : List Char)

/-- Record consumed characters into the capture group when it is open. -/
def capPush (st : CapSt) (cs : List Char) : CapSt :=
  match st with
  | .during acc => .during (cs.reverse ++ acc)
  | st => st

/-- Case-insensitive literal match (the patterns are compiled with `re.IGNORECASE`);
the stored pattern characters are lowercase.  Returns the consumed text and the rest. -/
def stripCI : List Char → List Char → Option (List Char × List Char)
  | [], s => some ([], s)
  | _ :: _, [] => none
  | a :: l, c :: s =>
    if c.toLower = a then
      match stripCI l s with
      | some (took, rest) => some (c :: took, rest)
      | none => none
    else none

/-- All ways a greedy character-class quantifier can split the input, longest
consumed prefix first — the order in which a backtracking engine tries them. -/
def greedyChoices (f : Char → Bool) : List Char → List (List Char × List Char)
  | [] => [([], [])]
  | c :: cs =>
    if f c then ((greedyChoices f cs).map (fun p => (c :: p.1, p.2))) ++ [([], c :: cs)]
    else [([], c :: cs)]

/-- Python `\s` (ASCII whitespace). -/
def isSpaceCh (c : Char) : Bool :=
  c = ' ' || c = '\t' || c = '\n' || c = '\r' || c = '\x0b' || c = '\x0c'

/-- Python `\d`. -/
def isDigitCh (c : Char) : Bool := c.isDigit

/-- Python `[^\d]`: any character that is not a digit (newlines included). -/
def notDigitCh (c : Char) : Bool := !c.isDigit

/-- Try a list of quantifier splits in order, running the continuation on each. -/
def tryAll (k : CapSt → List Char → Option (List Char)) (st : CapSt) :
    List (List Char × List Char) → Option (List Char)
  | [] => none
  | (chunk, suffix) :: more =>
    match k (capPush st chunk) suffix with
    | some r => some r
    | none => tryAll k st more

/-- Match one token, with `k` as the continuation for the rest of the pattern.
Greedy semantics throughout: optional pieces are tried present-first, quantifiers
longest-first, exactly as Python's backtracking engine does. -/
def matchTok (t : RTok) (k : CapSt → List Char → Option (List Char)) (st : CapSt)
    (s : List Char) : Option (List Char) :=
  match t with
  | .gopen => k (.during []) s
  | .gclose =>
    match st with
    | .during acc => k (.done acc.reverse) s
    | _ => none
  | .lits l =>
    match stripCI l s with
    | some (took, rest) => k (capPush st took) rest
    | none => none
  | .ch c =>
    match s with
    | c2 :: rest => if c2 = c then k (capPush st [c2]) rest else none
    | [] => none
  | .optc c =>
    match s with
    | c2 :: rest =>
      if c2 = c then
        match k (capPush st [c2]) rest with
        | some r => some r
        | none => k st s
      else k st s
    | [] => k st s
  | .star f => tryAll k st (greedyChoices f s)
  | .plus f => tryAll k st ((greedyChoices f s).filter (fun p => !p.1.isEmpty))
  | .optLitSp l =>
    match (match stripCI l s with
           | some (took, rest) =>
             tryAll k (capPush st took)
               ((greedyChoices isSpaceCh rest).filter (fun p => !p.1.isEmpty))
           | none => none) with
    | some r => some r
    | none => k st s

/-- Match a whole pattern at the current position; a match need not reach the end of
the input.  Returns the text of capture group 1 on success. -/
def reMatch (toks : List RTok) : CapSt → List Char → Option (List Char) :=
  match toks with
  | [] => fun st _ =>
    match st with
    | .done r => some r
    | _ => none
  | t :: rest => matchTok t (reMatch rest)

/-- Python `re.search`: try each start position from the left, first match wins. -/
def reSearch (toks : List RTok) : List Char → Option (List Char)
  | [] => reMatch toks .pre []
  | c :: rest =>
    match reMatch toks .pre (c :: rest) with
    | some r => some r
    | none => reSearch toks rest

/-- The shared numeric capture group `(-?\d+\.?\d*)`. -/
def numGroup : List RTok :=
  [.gopen, .optc '-', .plus isDigitCh, .optc '.', .star isDigitCh, .gclose]

/-- Pattern `YTD[^\d]*(-?\d+\.?\d*)%` (line 122). -/
def patYTD : List RTok :=
  [.lits "ytd".data, .star notDigitCh] ++ numGroup ++ [.ch '%']

/-- Pattern `(?:Since\s+)?Inception[^\d]*(-?\d+\.?\d*)%` (line 128). -/
def patInception : List RTok :=
  [.optLitSp "since".data, .lits "inception".data, .star notDigitCh] ++ numGroup ++ [.ch '%']

/-- Pattern `Sharpe\s+Ratio[^\d]*(-?\d+\.?\d*)` (line 134). -/
def patSharpe : List RTok :=
  [.lits "sharpe".data, .plus isSpaceCh, .lits "ratio".data, .star notDigitCh] ++ numGroup

/-- Pattern `Beta[^\d]*(-?\d+\.?\d*)` (line 140). -/
def patBeta : List RTok :=
  [.lits "beta".data, .star notDigitCh] ++ numGroup

/-- Pattern `(?:Max\s+)?Drawdown[^\d]*(-?\d+\.?\d*)%` (line 146). -/
def patDrawdown : List RTok :=
  [.optLitSp "max".data, .lits "drawdown".data, .star notDigitCh] ++ numGroup ++ [.ch '%']

/-! ### Metrics extraction (`parse_pdf_report`) -/

/-- The metrics dictionary built by `parse_pdf_report`: one optional formatted string
per fixed key.  A `none` field models the key being absent from the Python dict. -/
structure Metrics where
  YTD : Option String
  SinceInception : Option String
  Sharpe : Option String
  Beta : Option String
  MaxDrawdown : Option String
deriving DecidableEq

/-- Python dict truthiness: the metrics dict is falsy exactly when it has no keys. -/
def Metrics.isEmpty (m : Metrics) : Bool :=
  m.YTD.isNone && m.SinceInception.isNone && m.Sharpe.isNone && m.Beta.isNone &&
    m.MaxDrawdown.isNone

/-- Apply the five patterns to the extracted report text.  Percent metrics get `%`
re-attached to the captured group (lines 125, 131, 149); `Sharpe` and `Beta` store the
bare captured number (lines 137, 143).  Unmatched keys stay absent. -/
def extractMetrics (all_text : String) : Metrics :=
  let s := all_text.data
  ⟨(reSearch patYTD s).map (fun g => String.mk g ++ "%"),
   (reSearch patInception s).map (fun g => String.mk g ++ "%"),
   (reSearch patSharpe s).map String.mk,
   (reSearch patBeta s).map String.mk,
   (reSearch patDrawdown s).map (fun g => String.mk g ++ "%")⟩

/-- A report source either yields its (page-selected, concatenated) text, or the
underlying PDF cannot be opened or decoded at all.  Page selection itself is
collaborator configuration (`Config.PDF_PAGES_TO_PARSE`), not core logic. -/
inductive SourceContent where
  | readable (all_text : String)
  | unreadable
deriving DecidableEq

/-- The fixed fallback record returned by the `except` branch of `parse_pdf_report`
(lines 154-163). -/
def fallbackMetrics : Metrics :=
  ⟨some "8.5%", some "12.3%", some "1.42", some "0.95", some "-5.2%"⟩

/-- The whole of `parse_pdf_report`: extract metrics from readable text; on any
failure to open or decode the source, return the fixed fallback record. -/
def parse_pdf_report : SourceContent → Metrics
  | .readable t => extractMetrics t
  | .unreadable => fallbackMetrics

/-! ### Conviction ranking (`get_top_convictions`) -/

/-- A row of the conviction table: columns `Model`, `YTD%`, `Commentary`. -/
structure ConvictionEntry where
  model : String
  ytdPct : ℚ
  commentary : String
deriving DecidableEq

/-- Ranking order used by `DataFrame.nlargest(n, col)` with its default
`keep="first"`: larger return first, ties broken by original row position.
`nlargest` is documented as a stable descending sort by the column followed by
`head(n)`, which on position-indexed rows is exactly this lexicographic order. -/
def convKey (a b : Nat × ConvictionEntry) : Prop :=
  b.2.ytdPct < a.2.ytdPct ∨ (a.2.ytdPct = b.2.ytdPct ∧ a.1 ≤ b.1)

instance : DecidableRel convKey := fun a b => by
  unfold convKey
  exact inferInstance

instance : IsTrans (Nat × ConvictionEntry) convKey := by
  constructor
  intro a b c hab hbc
  rcases hab with h1 | ⟨e1, i1⟩ <;> rcases hbc with h2 | ⟨e2, i2⟩
  · exact Or.inl (h2.trans h1)
  · exact Or.inl (by rw [← e2]; exact h1)
  · exact Or.inl (by rw [e1]; exact h2)
  · exact Or.inr ⟨e1.trans e2, i1.trans i2⟩

instance : IsTotal (Nat × ConvictionEntry) convKey := by
  constructor
  intro a b
  rcases lt_trichotomy a.2.ytdPct b.2.ytdPct with h | h | h
  · exact Or.inr (Or.inl h)
  · rcases Nat.le_total a.1 b.1 with hi | hi
    · exact Or.inl (Or.inr ⟨h, hi⟩)
    · exact Or.inr (Or.inr ⟨h.symm, hi⟩)
  · exact Or.inl (Or.inl h)

/-- Position-indexed result of `df.nlargest(n, "YTD%")`. -/
def nlargestIdx (es : List ConvictionEntry) (n : Nat) : List (Nat × ConvictionEntry) :=
  (List.insertionSort convKey es.enum).take n

/-- Rows of `df.nlargest(n, "YTD%")`: the `n` rows with the largest return,
descending, ties kept in original table order. -/
def nlargest (es : List ConvictionEntry) (n : Nat) : List ConvictionEntry :=
  (nlargestIdx es n).map Prod.snd

/-- Decimal rendering of a table return value, as Python string-formats the float
from the `YTD%` column.  Every return in this repository's tables has exactly one
decimal digit, and on such values this agrees with Python float formatting
(one digit is always printed, so `4` renders as `"4.0"` just as Python does). -/
def fmtRat1 (q : ℚ) : String :=
  let a := if q < 0 then -q else q
  (if q < 0 then "-" else "") ++ toString (a.num / (a.den : ℤ)) ++ "." ++
    toString ((10 * a.num) / (a.den : ℤ) % 10)

/-- One formatted conviction line (line 175):
`f"✅ {row['Model']}: {row['YTD%']}% — {row['Commentary']}"`. -/
def fmtConvLine (e : ConvictionEntry) : String :=
  "✅ " ++ e.model ++ ": " ++ fmtRat1 e.ytdPct ++ "% — " ++ e.commentary

/-- The whole of `get_top_convictions` (lines 165-181).  `convictions_df = none`
models the table never having been loaded (`self.convictions_df is None`);
`n = none` models the default argument `n: int = None`.  The line
`n = n or self.config.MAX_CONVICTIONS` uses Python `or`, so both `None` and `0`
fall back to `Config.MAX_CONVICTIONS = 3`.  The `except` branch (a missing `YTD%`
column) cannot arise in this typed embedding, where every row has all columns. -/
def get_top_convictions (convictions_df : Option (List ConvictionEntry))
    (n : Option Nat) : String :=
  match convictions_df with
  | none => "Conviction data not available"
  | some es =>
    let k : Nat :=
      match n with
      | none => 3
      | some 0 => 3
      | some m => m
    String.intercalate "\n" ((nlargest es k).map fmtConvLine)

/-- A return value given in tenths of a percent: `pct 152` is the table value
`15.2`.  Stated through `mkRat` so that the table evaluates inside the kernel;
the equalities with the decimal literals are proved where the claims use them. -/
def pct (n : ℤ) : ℚ := mkRat n 10

/-- The sample conviction table created by `_create_sample_convictions`
(lines 76-98), in its original row order, with the `YTD%` column
`[15.2, 8.3, 12.5, 4.1, -2.1, 9.7, 6.8, 11.3]`. -/
def sampleConvictions : List ConvictionEntry :=
  [⟨"US Large Cap Growth", pct 152,
    "Leading innovation companies showing robust earnings growth"⟩,
   ⟨"International Developed Markets", pct 83,
    "Benefiting from currency stabilization and economic recovery"⟩,
   ⟨"Technology Sector Focus", pct 125,
    "Strong performance driven by AI and cloud infrastructure investments"⟩,
   ⟨"Fixed Income Core", pct 41,
    "Stable returns in volatile market environment"⟩,
   ⟨"Emerging Markets", pct (-21),
    "Temporary headwinds from geopolitical concerns"⟩,
   ⟨"Real Estate Investment Trusts", pct 97,
    "Solid dividend yields with capital appreciation potential"⟩,
   ⟨"Small Cap Value", pct 68,
    "Attractive valuations in quality small-cap names"⟩,
   ⟨"Commodities & Energy", pct 113,
    "Energy transition and commodity supercycle themes"⟩]

/-! ### Template substitution (`generate_email` / Python `str.format`)

The template engine is Python `str.format` called with exactly five keyword
arguments (lines 230-236).  The model below implements `str.format` for templates
using named replacement fields without conversions or format specs — the only form
the system's templates use: a scan pass turning the template into literal-character
and field chunks (with `\x7b\x7b` and `\x7d\x7d` escapes and Python's `ValueError`
cases for stray braces), then substitution, with `KeyError` on an unknown field
name.  Auto-numbered and positional fields are outside the model. -/

/-- The literal open-brace character. -/
def openBr : Char := Char.ofNat 123

/-- The literal close-brace character. -/
def closeBr : Char := Char.ofNat 125

/-- A single-quote character as a string (used in Python error renderings). -/
def squo : String := String.mk [Char.ofNat 39]

/-- One parsed piece of a template: a literal character or a replacement field. -/
inductive Chunk where
  | lit (c : Char)
  | field (name : String)
deriving DecidableEq

/-- The exceptions `str.format` can raise on the modelled fragment. -/
inductive FmtErr where
  | keyErr (name : String)
  | valueErr (msg : String)
deriving DecidableEq

/-- Message of Python's `ValueError` for a lone open brace. -/
def singleOpenMsg : String :=
  "Single " ++ squo ++ "\x7b" ++ squo ++ " encountered in format string"

/-- Message of Python's `ValueError` for a lone close brace. -/
def singleCloseMsg : String :=
  "Single " ++ squo ++ "\x7d" ++ squo ++ " encountered in format string"

/-- Message of Python's `ValueError` for an open brace inside a field name. -/
def nestedOpenMsg : String :=
  "unexpected " ++ squo ++ "\x7b" ++ squo ++ " in field name"

/-- Scanner state: plain text, just after a single open or close brace, or inside a
replacement field (reversed name characters accumulated). -/
inductive TkSt where
  | normal
  | sawOpen
  | sawClose
  | inField (acc : List Char)

/-- Scan a template into chunks, one character at a time.  A doubled brace is a
literal brace; a single close brace, an unterminated field, and an open brace
inside a field name are the `ValueError` cases of Python `str.format`. -/
def tokenizeGo : List Char → TkSt → Except FmtErr (List Chunk)
  | [], .normal => .ok []
  | [], .sawOpen => .error (.valueErr singleOpenMsg)
  | [], .sawClose => .error (.valueErr singleCloseMsg)
  | [], .inField _ => .error (.valueErr singleOpenMsg)
  | c :: rest, .normal =>
    if c = openBr then tokenizeGo rest .sawOpen
    else if c = closeBr then tokenizeGo rest .sawClose
    else Except.map (fun chunks => Chunk.lit c :: chunks) (tokenizeGo rest .normal)
  | c :: rest, .sawOpen =>
    if c = openBr then
      Except.map (fun chunks => Chunk.lit openBr :: chunks) (tokenizeGo rest .normal)
    else if c = closeBr then
      Except.map (fun chunks => Chunk.field "" :: chunks) (tokenizeGo rest .normal)
    else tokenizeGo rest (.inField [c])
  | c :: rest, .sawClose =>
    if c = closeBr then
      Except.map (fun chunks => Chunk.lit closeBr :: chunks) (tokenizeGo rest .normal)
    else .error (.valueErr singleCloseMsg)
  | c :: rest, .inField acc =>
    if c = closeBr then
      Except.map (fun chunks => Chunk.field (String.mk acc.reverse) :: chunks)
        (tokenizeGo rest .normal)
    else if c = openBr then .error (.valueErr nestedOpenMsg)
    else tokenizeGo rest (.inField (c :: acc))

/-- Keyword-argument lookup for a replacement field. -/
def lookupCtx (n : String) : List (String × String) → Option String
  | [] => none
  | (k, v) :: rest => if n = k then some v else lookupCtx n rest

/-- Substitute chunks left to right; the first unknown field name raises `KeyError`,
exactly as `str.format` does. -/
def substChunksL (ctx : List (String × String)) : List Chunk → Except FmtErr (List Char)
  | [] => .ok []
  | .lit c :: rest => Except.map (fun s => c :: s) (substChunksL ctx rest)
  | .field n :: rest =>
    match lookupCtx n ctx with
    | none => .error (.keyErr n)
    | some v => Except.map (fun s => v.data ++ s) (substChunksL ctx rest)

/-- Python `template.format(**ctx)` on the modelled fragment. -/
def strFormat (t : String) (ctx : List (String × String)) : Except FmtErr String :=
  match tokenizeGo t.data .normal with
  | .error e => .error e
  | .ok chunks => Except.map String.mk (substChunksL ctx chunks)

/-- Python `str(e)` for the modelled exceptions: `KeyError` renders its key quoted,
`ValueError` renders its message. -/
def errStr : FmtErr → String
  | .keyErr n => squo ++ n ++ squo
  | .valueErr msg => msg

/-- The keyword arguments `generate_email` passes to `str.format` (lines 230-236):
exactly `Name`, `YTD`, `SinceInception`, `Sharpe`, `Convictions`, with
`metrics.get(key, "N/A")` supplying `"N/A"` for absent metric keys.
`Beta` and `MaxDrawdown` are extracted but never passed to the template. -/
def renderContext (client_name : String) (m : Metrics) (convictions : String) :
    List (String × String) :=
  [("Name", client_name),
   ("YTD", m.YTD.getD "N/A"),
   ("SinceInception", m.SinceInception.getD "N/A"),
   ("Sharpe", m.Sharpe.getD "N/A"),
   ("Convictions", convictions)]

/-! ### AI enhancement (`enhance_with_ai`) -/

/-- The external chat-completion request: given the composed prompt, either the
rewritten email text, or an error (network, auth, malformed response — anything the
`except Exception` branch would catch).  `none` for the whole client models
`self.openai_client is None` (no API key configured). -/
def AiCall : Type := String → Except String String

/-- The prompt composed at lines 189-204, an f-string over the base email and the
client name. -/
def buildPrompt (base_email client_name : String) : String :=
  "\n            You are a professional financial advisor. Please enhance this " ++
  "client email to make it more \n            personalized and engaging while " ++
  "maintaining professionalism. The client" ++ squo ++ "s name is " ++ client_name ++
  ".\n            \n            Key requirements:\n            " ++
  "1. Keep all the performance numbers exactly as provided\n            " ++
  "2. Add insightful commentary about the performance relative to market conditions" ++
  "\n            3. Make the tone warm but professional\n            " ++
  "4. Keep the email concise but informative\n            " ++
  "5. Maintain the structure but improve the flow\n            \n            " ++
  "Original email:\n            " ++ base_email ++
  "\n            \n            Enhanced email:\n            "

/-- The whole of `enhance_with_ai` (lines 183-221): identity when no client is
configured; otherwise one request, returning its text on success and the base email
unchanged on any failure.  The `metrics` parameter is accepted and unused, as in the
source. -/
def enhance_with_ai (openai_client : Option AiCall) (base_email client_name : String)
    (metrics : Metrics) : String :=
  match openai_client with
  | none => base_email
  | some call =>
    match call (buildPrompt base_email client_name) with
    | .ok enhanced_email => enhanced_email
    | .error _ => base_email

/-- The whole of `generate_email` (lines 223-246).  A missing template
(`self.email_template` still `None`) and an empty template file are both falsy in
Python, hence both yield the fixed unavailable message; a `str.format` exception is
caught and rendered as an error string; otherwise the base email is optionally
passed through AI enhancement (which never raises). -/
def generate_email (email_template : Option String) (openai_client : Option AiCall)
    (use_ai : Bool) (client_name : String) (metrics : Metrics) (convictions : String) :
    String :=
  match email_template with
  | none => "Email template not available"
  | some t =>
    if t = "" then "Email template not available"
    else
      match strFormat t (renderContext client_name metrics convictions) with
      | .error e => "Error generating email: " ++ errStr e
      | .ok base_email =>
        if use_ai && openai_client.isSome then
          enhance_with_ai openai_client base_email client_name metrics
        else base_email

/-! ### Batch orchestration (`process_all_reports`) -/

/-- One report source: the filename stem and the content state of the PDF. -/
structure ReportSource where
  stem : String
  content : SourceContent
deriving DecidableEq

/-- Result of a batch run: the persisted emails keyed by recipient identity, in
processing order, and the success counter reported at line 296. -/
structure BatchResult where
  outputs : List (String × String)
  processed : Nat
deriving DecidableEq

/-- Client-name derivation at line 270: `pdf_path.stem.replace("_", " ").title()`.
`titleGo` implements Python `str.title` on ASCII text: the first letter of each
alphabetic run is uppercased and the rest lowercased. -/
def titleGo : Bool → List Char → List Char
  | _, [] => []
  | prevAlpha, c :: cs =>
    if c.isAlpha then (if prevAlpha then c.toLower else c.toUpper) :: titleGo true cs
    else c :: titleGo false cs

/-- Python `str.title` (ASCII). -/
def pyTitle (s : String) : String := String.mk (titleGo false s.data)

/-- Derive the recipient identity from the filename stem. -/
def deriveClientName (stem : String) : String :=
  pyTitle (String.mk (stem.data.map (fun c => if c = '_' then ' ' else c)))

/-- One iteration of the loop at lines 267-294: derive the client name, parse the
report, skip the source when no metrics were extracted, otherwise render (and
optionally enhance) the email, persist it, and bump the success counter.  Every
operation in the loop body is total in this embedding, so the per-source
`except` branch is unreachable. -/
def stepSource (email_template : Option String) (openai_client : Option AiCall)
    (use_ai : Bool) (convictions_text : String) (acc : BatchResult)
    (src : ReportSource) : BatchResult :=
  let client_name := deriveClientName src.stem
  let metrics := parse_pdf_report src.content
  if metrics.isEmpty then acc
  else
    ⟨acc.outputs ++
       [(client_name,
         generate_email email_template openai_client use_ai client_name metrics
           convictions_text)],
     acc.processed + 1⟩

/-- The whole of `process_all_reports` (lines 248-296): the conviction text is
computed once, before the loop (line 264, `self.get_top_convictions()` with the
default `n=None`), and the sources are then processed sequentially. -/
def process_all_reports (email_template : Option String) (openai_client : Option AiCall)
    (use_ai : Bool) (convictions_df : Option (List ConvictionEntry))
    (srcs : List ReportSource) : BatchResult :=
  let convictions_text := get_top_convictions convictions_df none
  srcs.foldl (stepSource email_template openai_client use_ai convictions_text) ⟨[], 0⟩

/-- Per-source outcome as a standalone function of a single shared conviction text:
used to state that the batch is a pointwise map over sources with one fixed
conviction string. -/
def emailFor (email_template : Option String) (openai_client : Option AiCall)
    (use_ai : Bool) (convictions_text : String) (src : ReportSource) :
    Option (String × String) :=
  let client_name := deriveClientName src.stem
  let metrics := parse_pdf_report src.content
  if metrics.isEmpty then none
  else
    some (client_name,
      generate_email email_template openai_client use_ai client_name metrics
        convictions_text)

/-! ### Specification-side vocabulary for the render claims -/

/-- The five supported placeholder names. -/
def fiveNames : List String := ["Name", "YTD", "SinceInception", "Sharpe", "Convictions"]

/-- A chunk is supported when any field it contains is one of the five names. -/
def fieldSupported : Chunk → Bool
  | .lit _ => true
  | .field n => fiveNames.contains n

/-- Value each supported placeholder should receive according to the claim:
the recipient name, the literal metric string when present, the literal `"N/A"`
when the metric is absent, and the conviction text. -/
def claimedFieldValue (client_name : String) (m : Metrics) (convictions : String)
    (n : String) : String :=
  if n = "Name" then client_name
  else if n = "YTD" then (match m.YTD with | some v => v | none => "N/A")
  else if n = "SinceInception" then
    (match m.SinceInception with | some v => v | none => "N/A")
  else if n = "Sharpe" then (match m.Sharpe with | some v => v | none => "N/A")
  else convictions

/-- Characters a chunk contributes to the rendered email under the claim. -/
def chunkRender (client_name : String) (m : Metrics) (convictions : String) :
    Chunk → List Char
  | .lit c => [c]
  | .field n => (claimedFieldValue client_name m convictions n).data

/-- True when the character is not a brace. -/
def notBraceCh (c : Char) : Bool := !(c = openBr || c = closeBr)

/-- A string with no brace characters: it contains no replacement field at all, in
particular none of the five placeholders, and `str.format` maps it to itself. -/
def braceFreeB (s : String) : Bool := s.data.all notBraceCh

/-- Condition on a chunk under which rendering stays brace-free: literal characters
are not braces, and any referenced field resolves to a brace-free value. -/
def chunkOkB (ctx : List (String × String)) : Chunk → Bool
  | .lit c => notBraceCh c
  | .field n =>
    match lookupCtx n ctx with
    | some v => braceFreeB v
    | none => false

/-! ### Helper lemmas -/

theorem lookupCtx_rc_name (c : String) (m : Metrics) (v : String) :
    lookupCtx "Name" (renderContext c m v) = some c := rfl

theorem lookupCtx_rc_ytd (c : String) (m : Metrics) (v : String) :
    lookupCtx "YTD" (renderContext c m v) = some (m.YTD.getD "N/A") := rfl

theorem lookupCtx_rc_inception (c : String) (m : Metrics) (v : String) :
    lookupCtx "SinceInception" (renderContext c m v) =
      some (m.SinceInception.getD "N/A") := rfl

theorem lookupCtx_rc_sharpe (c : String) (m : Metrics) (v : String) :
    lookupCtx "Sharpe" (renderContext c m v) = some (m.Sharpe.getD "N/A") := rfl

theorem lookupCtx_rc_conv (c : String) (m : Metrics) (v : String) :
    lookupCtx "Convictions" (renderContext c m v) = some v := rfl

theorem substChunksL_supported (c : String) (m : Metrics) (v : String) :
    ∀ chunks : List Chunk, chunks.all fieldSupported = true →
      substChunksL (renderContext c m v) chunks =
        .ok ((chunks.map (chunkRender c m v)).flatten) := by
  intro chunks
  induction chunks with
  | nil => intro _; rfl
  | cons ch rest ih =>
    intro h
    rw [List.all_cons, Bool.and_eq_true] at h
    obtain ⟨hch, hrest⟩ := h
    cases ch with
    | lit a =>
      simp [substChunksL, ih hrest, Except.map, chunkRender]
    | field n =>
      have hn : n ∈ fiveNames := by
        simpa [fieldSupported] using hch
      fin_cases hn
      · simp [substChunksL, lookupCtx_rc_name, ih hrest, Except.map, chunkRender,
          claimedFieldValue]
      · cases hy : m.YTD <;>
          simp [substChunksL, lookupCtx_rc_ytd, ih hrest, Except.map, chunkRender,
            claimedFieldValue, hy]
      · cases hy : m.SinceInception <;>
          simp [substChunksL, lookupCtx_rc_inception, ih hrest, Except.map, chunkRender,
            claimedFieldValue, hy]
      · cases hy : m.Sharpe <;>
          simp [substChunksL, lookupCtx_rc_sharpe, ih hrest, Except.map, chunkRender,
            claimedFieldValue, hy]
      · simp [substChunksL, lookupCtx_rc_conv, ih hrest, Except.map, chunkRender,
          claimedFieldValue]

theorem tokenizeGo_braceFree :
    ∀ cs : List Char, cs.all notBraceCh = true →
      tokenizeGo cs .normal = .ok (cs.map Chunk.lit) := by
  intro cs
  induction cs with
  | nil => intro _; rfl
  | cons c rest ih =>
    intro h
    rw [List.all_cons, Bool.and_eq_true] at h
    obtain ⟨hc, hrest⟩ := h
    simp only [notBraceCh, Bool.not_eq_true', Bool.or_eq_false_iff, decide_eq_false_iff_not]
      at hc
    simp [tokenizeGo, hc.1, hc.2, ih hrest, Except.map]

theorem substChunksL_lits (ctx : List (String × String)) :
    ∀ cs : List Char, substChunksL ctx (cs.map Chunk.lit) = .ok cs := by
  intro cs
  induction cs with
  | nil => rfl
  | cons c rest ih => simp [substChunksL, ih, Except.map]

theorem substChunksL_braceFree (ctx : List (String × String)) :
    ∀ chunks : List Chunk, chunks.all (chunkOkB ctx) = true →
      ∃ cs : List Char, substChunksL ctx chunks = .ok cs ∧ cs.all notBraceCh = true := by
  intro chunks
  induction chunks with
  | nil => intro _; exact ⟨[], rfl, rfl⟩
  | cons ch rest ih =>
    intro h
    rw [List.all_cons, Bool.and_eq_true] at h
    obtain ⟨hch, hrest⟩ := h
    obtain ⟨cs, hcs, hbf⟩ := ih hrest
    cases ch with
    | lit a =>
      refine ⟨a :: cs, ?_, ?_⟩
      · simp [substChunksL, hcs, Except.map]
      · rw [List.all_cons, Bool.and_eq_true]
        exact ⟨hch, hbf⟩
    | field n =>
      rw [chunkOkB] at hch
      cases hl : lookupCtx n ctx with
      | none => rw [hl] at hch; exact absurd hch (by simp)
      | some v =>
        rw [hl] at hch
        refine ⟨v.data ++ cs, ?_, ?_⟩
        · simp [substChunksL, hl, hcs, Except.map]
        · rw [List.all_append, Bool.and_eq_true]
          exact ⟨hch, hbf⟩

theorem foldl_stepSource (tmpl : Option String) (ai : Option AiCall) (uai : Bool)
    (ct : String) :
    ∀ (srcs : List ReportSource) (acc : BatchResult),
      srcs.foldl (stepSource tmpl ai uai ct) acc =
        ⟨acc.outputs ++ srcs.filterMap (emailFor tmpl ai uai ct),
         acc.processed + (srcs.filterMap (emailFor tmpl ai uai ct)).length⟩ := by
  intro srcs
  induction srcs with
  | nil => intro acc; cases acc; simp
  | cons s rest ih =>
    intro acc
    rw [List.foldl_cons, ih, List.filterMap_cons]
    by_cases h : (parse_pdf_report s.content).isEmpty = true
    · simp [stepSource, emailFor, h]
    · rw [Bool.not_eq_true] at h
      simp [stepSource, emailFor, h, Nat.add_assoc, Nat.add_comm 1]

theorem filterMap_emailFor_length (tmpl : Option String) (ai : Option AiCall) (uai : Bool)
    (ct : String) :
    ∀ srcs : List ReportSource,
      (∀ src ∈ srcs, (parse_pdf_report src.content).isEmpty = false) →
      (srcs.filterMap (emailFor tmpl ai uai ct)).length = srcs.length := by
  intro srcs
  induction srcs with
  | nil => intro _; rfl
  | cons s rest ih =>
    intro h
    have hs := h s (List.mem_cons_self s rest)
    have hr : ∀ src ∈ rest, (parse_pdf_report src.content).isEmpty = false :=
      fun src hm => h src (List.mem_cons_of_mem _ hm)
    rw [List.filterMap_cons]
    simp [emailFor, hs, ih hr]

/-! ### Claim theorems -/

/-- C1.  `get_top_convictions` ranks through `nlargest`, which selects the `n`
entries with the largest `returnPct` in descending order, ties broken by original
table position (stable): the position-indexed selection is the `n`-prefix of a
permutation of the indexed table that is pairwise ordered by `convKey`
(return descending, then position ascending) — such a permutation is unique, so
this characterises the ranking completely; the output length is `min n` with the
table size; every selected row ranks at least as high as every non-selected row;
and on the sample table with returns `[15.2, 8.3, 12.5, 4.1, -2.1, 9.7, 6.8, 11.3]`
the top 3 are the entries with returns `15.2, 12.5, 11.3`, in that order. -/
theorem nlargest_stable_descending_selection :
    (∀ (es : List ConvictionEntry) (n : Nat),
      (∃ r : List (Nat × ConvictionEntry),
        r.Perm es.enum ∧ r.Pairwise convKey ∧ nlargestIdx es n = r.take n) ∧
      (nlargest es n).length = min n es.length ∧
      (∀ p ∈ nlargestIdx es n, ∀ q ∈ es.enum, q ∉ nlargestIdx es n → convKey p q)) ∧
    ((pct 152 : ℚ) = 15.2 ∧ (pct 125 : ℚ) = 12.5 ∧ (pct 113 : ℚ) = 11.3) ∧
    nlargest sampleConvictions 3 =
      [⟨"US Large Cap Growth", pct 152,
        "Leading innovation companies showing robust earnings growth"⟩,
       ⟨"Technology Sector Focus", pct 125,
        "Strong performance driven by AI and cloud infrastructure investments"⟩,
       ⟨"Commodities & Energy", pct 113,
        "Energy transition and commodity supercycle themes"⟩] := by
  refine ⟨fun es n => ⟨⟨List.insertionSort convKey es.enum,
      List.perm_insertionSort convKey es.enum,
      List.sorted_insertionSort convKey es.enum, rfl⟩, ?_, ?_⟩,
    ⟨?_, ?_, ?_⟩, by decide⟩
  · simp [nlargest, nlargestIdx, List.length_take, List.length_insertionSort,
      List.enum_length]
  · intro p hp q hq hqn
    have hperm := List.perm_insertionSort convKey es.enum
    have hpair : List.Pairwise convKey (List.insertionSort convKey es.enum) :=
      List.sorted_insertionSort convKey es.enum
    have hqr : q ∈ List.insertionSort convKey es.enum := hperm.mem_iff.mpr hq
    rw [← List.take_append_drop n (List.insertionSort convKey es.enum),
      List.mem_append] at hqr
    have hqd : q ∈ (List.insertionSort convKey es.enum).drop n := by
      rcases hqr with h | h
      · exact absurd h hqn
      · exact h
    have hsplit := List.take_append_drop n (List.insertionSort convKey es.enum)
    rw [← hsplit, List.pairwise_append] at hpair
    exact hpair.2.2 p hp q hqd
  · norm_num [pct, Rat.mkRat_eq_div]
  · norm_num [pct, Rat.mkRat_eq_div]
  · norm_num [pct, Rat.mkRat_eq_div]

/-- Witness for C1: the first selected indexed row of the sample table ranks above
the non-selected row at position 1, via the selection conjunct of the theorem at
`es := sampleConvictions`, `n := 3`. -/
theorem nlargest_stable_descending_selection_witness :
    convKey
      (0, ⟨"US Large Cap Growth", pct 152,
        "Leading innovation companies showing robust earnings growth"⟩)
      (1, ⟨"International Developed Markets", pct 83,
        "Benefiting from currency stabilization and economic recovery"⟩) :=
  (nlargest_stable_descending_selection.1 sampleConvictions 3).2.2
    _ (by decide) _ (by decide) (by decide)

/-- Counterexample for C2.  A batch of `N = 2` sources, exactly one unreadable and
the other processing normally, does NOT report `processed = N - 1`: the unreadable
source is not skipped.  `parse_pdf_report` swallows the failure and returns the
non-empty fallback record, so an email is generated and persisted for that source
too (with the placeholder value `8.5%`), and the run reports `processed = 2`. -/
theorem processAll_unreadable_not_skipped :
    (process_all_reports (some "Hi {Name}: {YTD} {Convictions}") none false none
        [⟨"john_smith", .readable "YTD Return: 7.1%"⟩,
         ⟨"mary_jones", .unreadable⟩]) =
      ⟨[("John Smith", "Hi John Smith: 7.1% Conviction data not available"),
        ("Mary Jones", "Hi Mary Jones: 8.5% Conviction data not available")], 2⟩ ∧
    (2 : Nat) ≠ 2 - 1 :=
  ⟨rfl, by decide⟩

/-- C2, amended.  `process_all_reports` indeed never aborts and processes every
other source, but an unreadable source is recovered, not skipped: the extractor
returns the fixed non-empty fallback record for it, an email is generated from the
fallback values, and the reported count equals `N`, not `N - 1`.  Stated for any
batch whose sources all yield non-empty metrics — which, by the first two
conjuncts, covers every unreadable source. -/
theorem processAll_counts_unreadable_as_processed (email_template : Option String)
    (openai_client : Option AiCall) (use_ai : Bool)
    (convictions_df : Option (List ConvictionEntry)) (srcs : List ReportSource)
    (h : ∀ src ∈ srcs, (parse_pdf_report src.content).isEmpty = false) :
    parse_pdf_report .unreadable = fallbackMetrics ∧
    fallbackMetrics.isEmpty = false ∧
    (process_all_reports email_template openai_client use_ai convictions_df
        srcs).processed = srcs.length := by
  refine ⟨rfl, rfl, ?_⟩
  rw [process_all_reports, foldl_stepSource]
  simpa using filterMap_emailFor_length email_template openai_client use_ai
    (get_top_convictions convictions_df none) srcs h

/-- Witness for C2's amended theorem on the concrete two-source batch. -/
theorem processAll_counts_unreadable_as_processed_witness :
    parse_pdf_report .unreadable = fallbackMetrics ∧
    fallbackMetrics.isEmpty = false ∧
    (process_all_reports (some "Hi {Name}: {YTD} {Convictions}") none false none
        [⟨"john_smith", .readable "YTD Return: 7.1%"⟩,
         ⟨"mary_jones", .unreadable⟩]).processed = 2 :=
  processAll_counts_unreadable_as_processed (some "Hi {Name}: {YTD} {Convictions}")
    none false none
    [⟨"john_smith", .readable "YTD Return: 7.1%"⟩, ⟨"mary_jones", .unreadable⟩]
    (by decide)

/-- C3.  The code drops the sign of a negative percent metric: on a report
containing `Max Drawdown: -5.2%`, the greedy `[^\d]*` in the pattern
`(?:Max\s+)?Drawdown[^\d]*(-?\d+\.?\d*)%` consumes the minus sign (a non-digit)
before the capture group can see it, and the match then succeeds without ever
backtracking past it, so the extracted value is `"5.2%"` rather than the
`"-5.2%"` the claim (and the `-?` written into the capture group) intends. -/
theorem drawdown_negative_sign_lost :
    (extractMetrics "Max Drawdown: -5.2%").MaxDrawdown = some "5.2%" ∧
    (extractMetrics "Max Drawdown: -5.2%").MaxDrawdown ≠ some "-5.2%" :=
  ⟨rfl, by decide⟩

theorem lookupCtx_rc_unsupported (c : String) (m : Metrics) (v : String) (n : String)
    (h : fiveNames.contains n = false) :
    lookupCtx n (renderContext c m v) = none := by
  have h1 : ¬(n = "Name") := by intro e; subst e; simp [fiveNames] at h
  have h2 : ¬(n = "YTD") := by intro e; subst e; simp [fiveNames] at h
  have h3 : ¬(n = "SinceInception") := by intro e; subst e; simp [fiveNames] at h
  have h4 : ¬(n = "Sharpe") := by intro e; subst e; simp [fiveNames] at h
  have h5 : ¬(n = "Convictions") := by intro e; subst e; simp [fiveNames] at h
  simp [lookupCtx, renderContext, h1, h2, h3, h4, h5]

theorem substChunksL_first_unknown (c : String) (m : Metrics) (v : String) (n : String)
    (hn : lookupCtx n (renderContext c m v) = none) :
    ∀ (pre post : List Chunk), pre.all fieldSupported = true →
      substChunksL (renderContext c m v) (pre ++ Chunk.field n :: post) =
        .error (.keyErr n) := by
  intro pre
  induction pre with
  | nil => intro post _; simp [substChunksL, hn]
  | cons ch rest ih =>
    intro post h
    rw [List.all_cons, Bool.and_eq_true] at h
    obtain ⟨hch, hrest⟩ := h
    cases ch with
    | lit a => simp [substChunksL, ih post hrest, Except.map]
    | field k =>
      have hk : k ∈ fiveNames := by simpa [fieldSupported] using hch
      fin_cases hk <;>
        simp [substChunksL, lookupCtx_rc_name, lookupCtx_rc_ytd, lookupCtx_rc_inception,
          lookupCtx_rc_sharpe, lookupCtx_rc_conv, ih post hrest, Except.map]

/-- C4.  For any template that scans into chunks whose fields are all among the five
supported placeholders, rendering substitutes, for every metric key among `YTD`,
`SinceInception` and `Sharpe`, the literal string `"N/A"` when the key is absent
from the metrics record and the literal stored value when it is present (and the
recipient name and conviction text for the other two placeholders); the result is
the plain concatenation of those values with the template's literal text — in
particular rendering succeeds, never an error. -/
theorem render_absent_metric_na (t : String) (chunks : List Chunk) (client_name : String)
    (m : Metrics) (convictions : String) (use_ai : Bool)
    (h0 : t ≠ "")
    (h1 : tokenizeGo t.data .normal = .ok chunks)
    (h2 : chunks.all fieldSupported = true) :
    generate_email (some t) none use_ai client_name m convictions =
      String.mk ((chunks.map (chunkRender client_name m convictions)).flatten) := by
  simp [generate_email, h0, strFormat, h1,
    substChunksL_supported client_name m convictions chunks h2, Except.map]

/-- Witness for C4: a template referencing `Sharpe` (absent, renders `"N/A"`) and
`YTD` (present, renders its stored value). -/
theorem render_absent_metric_na_witness :
    generate_email (some "S: {Sharpe}; Y: {YTD}") none false "Bob"
        ⟨some "8.5%", none, none, none, none⟩ "CT" = "S: N/A; Y: 8.5%" :=
  (render_absent_metric_na "S: {Sharpe}; Y: {YTD}"
      [.lit 'S', .lit ':', .lit ' ', .field "Sharpe", .lit ';', .lit ' ', .lit 'Y',
       .lit ':', .lit ' ', .field "YTD"]
      "Bob" ⟨some "8.5%", none, none, none, none⟩ "CT" false
      (by decide) rfl rfl).trans rfl

/-- Counterexample for C5.  A template referencing the unsupported placeholder
`Foo` is not fatal to the run segment: `generate_email` catches the `KeyError`,
the orchestrator persists the error text as that recipient's email body, and the
source is counted as processed (`processed = 1`), so the configuration error is
absorbed into a normally-persisted, normally-counted result rather than failing
the segment. -/
theorem render_error_counted_processed :
    (process_all_reports (some "Hello {Foo}") none false none
        [⟨"john_smith", .readable "YTD Return: 7.1%"⟩]) =
      ⟨[("John Smith", "Error generating email: " ++ squo ++ "Foo" ++ squo)], 1⟩ :=
  rfl

/-- C5, amended.  An unknown placeholder or a missing template is signalled only as
a distinguishable error string returned in place of the email: for any template
that scans to chunks with a first unsupported field `n` (every field before it
supported), `generate_email` returns
`"Error generating email: " ++ squo ++ n ++ squo` (the caught, stringified
`KeyError`), and with no template at all it returns
`"Email template not available"`.  The error is not fatal: as the counterexample
records, the batch persists that string as the email and counts the source as
processed. -/
theorem render_unknown_placeholder_error_string (t : String) (pre post : List Chunk)
    (n : String) (client_name : String) (m : Metrics) (convictions : String)
    (openai_client : Option AiCall) (use_ai : Bool)
    (h1 : tokenizeGo t.data .normal = .ok (pre ++ Chunk.field n :: post))
    (h2 : pre.all fieldSupported = true)
    (h3 : fiveNames.contains n = false) :
    generate_email (some t) openai_client use_ai client_name m convictions =
      "Error generating email: " ++ squo ++ n ++ squo ∧
    generate_email none openai_client use_ai client_name m convictions =
      "Email template not available" := by
  have h0 : t ≠ "" := by
    intro e
    subst e
    rw [show ("" : String).data = [] from rfl] at h1
    simp [tokenizeGo] at h1
  refine ⟨?_, rfl⟩
  simp [generate_email, h0, strFormat, h1,
    substChunksL_first_unknown client_name m convictions n
      (lookupCtx_rc_unsupported client_name m convictions n h3) pre post h2,
    errStr, Except.map, String.append_assoc]

/-- Witness for C5's amended theorem at the template `"Hello {Foo}"`. -/
theorem render_unknown_placeholder_error_string_witness :
    generate_email (some "Hello {Foo}") none false "Bob" fallbackMetrics "CT" =
      "Error generating email: " ++ squo ++ "Foo" ++ squo ∧
    generate_email none none false "Bob" fallbackMetrics "CT" =
      "Email template not available" :=
  render_unknown_placeholder_error_string "Hello {Foo}"
    [.lit 'H', .lit 'e', .lit 'l', .lit 'l', .lit 'o', .lit ' '] [] "Foo"
    "Bob" fallbackMetrics "CT" none false rfl rfl rfl

/-- Counterexample for C6.  On a conviction table that was loaded but holds zero
entries, the conviction text is the empty string — `"\n".join` over no formatted
lines — not the placeholder `"Conviction data not available"`. -/
theorem empty_table_not_placeholder :
    get_top_convictions (some []) none = "" ∧
    get_top_convictions (some []) none ≠ "Conviction data not available" :=
  ⟨rfl, by decide⟩

/-- C6, amended.  On an empty (but loaded) table `topN` returns the empty sequence,
as claimed, but the conviction text substituted into emails is then the empty
string; the placeholder `"Conviction data not available"` appears only when the
table was never loaded at all (`convictions_df is None`). -/
theorem empty_table_behavior :
    (∀ k : Nat, nlargest [] k = []) ∧
    (∀ n : Option Nat, get_top_convictions (some []) n = "") ∧
    (∀ n : Option Nat, get_top_convictions none n = "Conviction data not available") := by
  refine ⟨?_, ?_, fun n => rfl⟩
  · intro k
    simp [nlargest, nlargestIdx, List.insertionSort]
  · intro n
    rcases n with _ | (_ | k) <;>
      simp [get_top_convictions, nlargest, nlargestIdx, List.insertionSort,
        String.intercalate]

/-- C7.  `enhance_with_ai` is the identity on the base email when no
text-generation client is configured, and whenever the request fails (the call
returns an error — network, auth, malformed response alike), the base email is
returned exactly unchanged. -/
theorem enhance_identity_unconfigured_or_failed :
    (∀ (base_email client_name : String) (m : Metrics),
      enhance_with_ai none base_email client_name m = base_email) ∧
    (∀ (call : AiCall) (base_email client_name : String) (m : Metrics) (e : String),
      call (buildPrompt base_email client_name) = .error e →
      enhance_with_ai (some call) base_email client_name m = base_email) := by
  refine ⟨fun _ _ _ => rfl, ?_⟩
  intro call base_email client_name m e h
  simp [enhance_with_ai, h]

/-- Witness for C7: a backend whose request always fails leaves the base email
unchanged. -/
theorem enhance_identity_unconfigured_or_failed_witness :
    enhance_with_ai (some (fun _ => .error "boom")) "base email" "Bob"
      fallbackMetrics = "base email" :=
  enhance_identity_unconfigured_or_failed.2 (fun _ => .error "boom") "base email"
    "Bob" fallbackMetrics "boom" rfl

/-- C8.  Within one batch run, the conviction text is computed once, before the
per-source loop, and the run is a pointwise map over the sources using that single
shared string: the outputs (and the processed count) factor through `emailFor`
applied to the fixed text `get_top_convictions convictions_df none`, a function of
the table alone — so every email in the batch receives the same conviction text,
regardless of which source it is for. -/
theorem processAll_shared_convictions_text (email_template : Option String)
    (openai_client : Option AiCall) (use_ai : Bool)
    (convictions_df : Option (List ConvictionEntry)) (srcs : List ReportSource) :
    (process_all_reports email_template openai_client use_ai convictions_df
        srcs).outputs =
      srcs.filterMap
        (emailFor email_template openai_client use_ai
          (get_top_convictions convictions_df none)) ∧
    (process_all_reports email_template openai_client use_ai convictions_df
        srcs).processed =
      (srcs.filterMap
        (emailFor email_template openai_client use_ai
          (get_top_convictions convictions_df none))).length := by
  rw [process_all_reports, foldl_stepSource]
  exact ⟨by simp, by simp⟩

/-- Counterexample for C9.  Rendering is not idempotent for every template and
context: `str.format` does not re-scan substituted values, so a context value that
itself contains a placeholder (here the conviction text `"{YTD}"`) survives into
the rendered output — which therefore does contain one of the five placeholders —
and a second render with the same context substitutes it, changing the string. -/
theorem render_not_idempotent_with_brace_values :
    strFormat "Hi {Convictions}"
        (renderContext "Bob" ⟨some "8.5%", none, none, none, none⟩ "{YTD}") =
      .ok "Hi {YTD}" ∧
    strFormat "Hi {YTD}"
        (renderContext "Bob" ⟨some "8.5%", none, none, none, none⟩ "{YTD}") =
      .ok "Hi 8.5%" ∧
    ("Hi 8.5%" : String) ≠ "Hi {YTD}" :=
  ⟨rfl, rfl, by decide⟩

/-- C9, amended.  Rendering is idempotent on brace-free data: whenever the
template's literal text contains no brace characters and every referenced field
resolves to a brace-free value, the rendered output contains no braces at all —
hence none of the five placeholders — and rendering it again with the same context
returns it unchanged.  Without that proviso the claim fails, as the recorded
counterexample shows. -/
theorem render_idempotent_on_brace_free (t : String) (ctx : List (String × String))
    (chunks : List Chunk) (out : String)
    (h1 : tokenizeGo t.data .normal = .ok chunks)
    (h2 : chunks.all (chunkOkB ctx) = true)
    (h3 : strFormat t ctx = .ok out) :
    braceFreeB out = true ∧ strFormat out ctx = .ok out := by
  obtain ⟨cs, hcs, hbf⟩ := substChunksL_braceFree ctx chunks h2
  have hsf : strFormat t ctx = Except.ok (String.mk cs) := by
    simp only [strFormat, h1, hcs, Except.map]
  rw [hsf] at h3
  injection h3 with h4
  subst h4
  refine ⟨hbf, ?_⟩
  simp only [strFormat, show (String.mk cs).data = cs from rfl,
    tokenizeGo_braceFree cs hbf, substChunksL_lits, Except.map]

/-- Witness for C9's amended theorem: a brace-free render of `"Dear {Name}"`. -/
theorem render_idempotent_on_brace_free_witness :
    braceFreeB "Dear Bob" = true ∧
    strFormat "Dear Bob" (renderContext "Bob" fallbackMetrics "CT") = .ok "Dear Bob" :=
  render_idempotent_on_brace_free "Dear {Name}"
    (renderContext "Bob" fallbackMetrics "CT")
    [.lit 'D', .lit 'e', .lit 'a', .lit 'r', .lit ' ', .field "Name"] "Dear Bob"
    rfl rfl rfl

/-- C10.  In `get_top_convictions`, the argument `n = 0` is treated as unset: the
line `n = n or self.config.MAX_CONVICTIONS` makes Python `or` replace the falsy `0`
(like `None`) with the default `3`, so the call returns the formatted top-3
conviction text — on the sample table, the three lines for returns
`15.2, 12.5, 11.3` — and not an empty result. -/
theorem topn_zero_uses_default :
    (∀ convictions_df : Option (List ConvictionEntry),
      get_top_convictions convictions_df (some 0) =
        get_top_convictions convictions_df none) ∧
    get_top_convictions (some sampleConvictions) (some 0) =
      "✅ US Large Cap Growth: 15.2% — Leading innovation companies showing robust earnings growth\n✅ Technology Sector Focus: 12.5% — Strong performance driven by AI and cloud infrastructure investments\n✅ Commodities & Energy: 11.3% — Energy transition and commodity supercycle themes" ∧
    get_top_convictions (some sampleConvictions) (some 0) ≠ "" := by
  refine ⟨?_, ?_, ?_⟩
  · intro df
    rcases df with _ | es <;> rfl
  · rfl
  · intro h
    exact absurd h (by decide)
